import Mathlib

/-!
Shallow embedding of two facades of the repository:
the API Gateway RestApi construct and the IAM Group construct.

Pure data is embedded as Lean structures; the imperative constructors and
mutators of the source become pure functions that return updated values,
and code that throws becomes functions into Except.

Collaborator classes that are not part of the provided sources (Stage,
Deployment, Policy, User, the generated resource classes and the util
helpers) are modelled from the specification; each such definition carries
a doc comment that says so.
-/

/-- Error values. The specification distinguishes three failure kinds, all
raised synchronously: configuration conflicts, validation errors and state
errors. -/
inductive CdkError where
  | configurationConflict (msg : String) : CdkError
  | validationError (msg : String) : CdkError
  | stateError (msg : String) : CdkError
deriving Repr, DecidableEq

/-- JavaScript disjunction with a string default: the left operand is taken
unless it is absent (undefined) or empty (falsy), in which case the default
is used. Embeds the idiom `x || d` of the source. -/
def jsOrDefault (o : Option String) (d : String) : String :=
  match o with
  | none => d
  | some s => if s = "" then d else s

/-- Embeds the `Integration` collaborator as an opaque payload; only its
identity matters to the RestApi facade. -/
structure Integration where
  payload : String
deriving Repr, DecidableEq

/-- Embeds the `Method` collaborator; only the HTTP method matters to the
inventory kept by the RestApi facade. -/
structure Method where
  httpMethod : String
deriving Repr, DecidableEq

/-- Options for the deployment stage. Modelled from the spec: the Stage
class is not among the provided sources and only its `stageName` option,
default "prod", participates in the specified behaviour. -/
structure StageOptions where
  stageName : Option String := none
deriving Repr, DecidableEq

/-- Embeds the `Deployment` collaborator as the data the RestApi
constructor passes to it. -/
structure Deployment where
  description : String
  retainDeployments : Option Bool := none
deriving Repr, DecidableEq

/-- Embeds the `Stage` collaborator as the data the RestApi constructor
passes to it, together with the construct identifier chosen for it. -/
structure Stage where
  constructId : String
  stageName : String
  deployment : Deployment
deriving Repr, DecidableEq

/-- Modelled from the spec: the Stage class is not among the provided
sources; it is named by its `stageName` option defaulting to "prod" (the
source idiom is a JavaScript disjunction, so an empty string also falls
back to the default). -/
def Stage.construct (constructId : String) (deployment : Deployment)
    (options : Option StageOptions) : Stage :=
  { constructId := constructId
    stageName := jsOrDefault (options.bind StageOptions.stageName) "prod"
    deployment := deployment }

/-- Modelled from the spec: the Stage class is not among the provided
sources; its urlForPath builds the public URL of the stage from the stage
name and the path, deterministically and totally. -/
def Stage.urlForPath (s : Stage) (path : String) : String :=
  "https://execute-api/" ++ s.stageName ++ path

/-- Embeds `RestApiProps` (the constructor option bundle). Every option is
independently defaulted to absent, as in the source where the whole bundle
defaults to the empty object. Collaborator-typed options are carried as
opaque strings. -/
structure RestApiProps where
  deploy : Option Bool := none
  deployOptions : Option StageOptions := none
  retainDeployments : Option Bool := none
  restApiName : Option String := none
  parameters : Option (List (String × String)) := none
  policy : Option String := none
  description : Option String := none
  apiKeySourceType : Option String := none
  binaryMediaTypes : Option (List String) := none
  endpointTypes : Option (List String) := none
  failOnWarnings : Option Bool := none
  minimumCompressionSize : Option Int := none
  cloneFrom : Option String := none
  cloudWatchRole : Option Bool := none
  defaultIntegration : Option Integration := none
deriving Repr, DecidableEq

/-- Embeds the `RestApi` construct state after construction. `outputs`
records the CloudFormation outputs published during construction. -/
structure RestApi where
  restApiId : String
  resourceId : String
  resourcePath : String := "/"
  defaultIntegration : Option Integration := none
  latestDeployment : Option Deployment := none
  deploymentStage : Option Stage := none
  methods : List Method := []
  outputs : List (String × String) := []
  cloudWatchRoleCreated : Bool := true
deriving Repr, DecidableEq

/-- The stage name computed by `configureDeployment`:
`(props.deployOptions && props.deployOptions.stageName) || "prod"` in the
source, so an absent options object, an absent stage name and an empty
stage name all fall back to "prod". -/
def deploymentStageName (props : RestApiProps) : String :=
  jsOrDefault (props.deployOptions.bind StageOptions.stageName) "prod"

/-- Embeds `RestApi.urlForPath` on the only state it reads, the optional
deployment stage: it throws a state error when no stage is set and
otherwise delegates to the stage. -/
def urlForPathOf (stage : Option Stage) (path : String) : Except CdkError String :=
  match stage with
  | none => Except.error (CdkError.stateError
      "Cannot determine deployment stage for API from \"deploymentStage\". Use \"deploy\" or explicitly set \"deploymentStage\"")
  | some s => Except.ok (s.urlForPath path)

/-- Embeds `RestApi.urlForPath` (the default value of its path parameter
in the source is "/"). -/
def RestApi.urlForPath (api : RestApi) (path : String) : Except CdkError String :=
  urlForPathOf api.deploymentStage path

/-- Embeds the `url` getter, which calls `urlForPath` with its default
path. -/
def RestApi.url (api : RestApi) : Except CdkError String :=
  api.urlForPath "/"

/-- Embeds the `RestApi` constructor, including `configureDeployment`.
The generated `cloudformation.RestApiResource` is not among the provided
sources; the identifiers it returns are modelled as deterministic tokens
derived from the construct id, and its construction itself never throws
here (see `RestApi.constructChecked` for the spec-modelled property
validation). The only throw site of the constructor in the provided source
is the deployOptions conflict inside `configureDeployment`; the source
message wraps the two option names in single quotes, elided here. -/
def RestApi.construct (id : String) (props : RestApiProps) : Except CdkError RestApi :=
  let restApiId := "Ref:" ++ id ++ "/Resource"
  let resourceId := "RootResourceId:" ++ id
  let deploy := props.deploy.getD true
  if deploy then
    let dep : Deployment :=
      { description := "Automatically created by the RestApi construct"
        retainDeployments := props.retainDeployments }
    -- the stage name is encoded into the construct id of the stage
    let stageName := deploymentStageName props
    let stage := Stage.construct ("DeploymentStage." ++ stageName) dep props.deployOptions
    match urlForPathOf (some stage) "/" with
    | Except.error e => Except.error e
    | Except.ok url =>
      Except.ok
        { restApiId := restApiId
          resourceId := resourceId
          defaultIntegration := props.defaultIntegration
          latestDeployment := some dep
          deploymentStage := some stage
          outputs := [("Endpoint", url)]
          cloudWatchRoleCreated := props.cloudWatchRole.getD true }
  else
    if props.deployOptions.isSome then
      Except.error (CdkError.configurationConflict
        "Cannot set deployOptions if deploy is disabled")
    else
      Except.ok
        { restApiId := restApiId
          resourceId := resourceId
          defaultIntegration := props.defaultIntegration
          cloudWatchRoleCreated := props.cloudWatchRole.getD true }

/-- Modelled from the spec: the generated resource class validates its
properties; a minimumCompressionSize outside the inclusive integer range
0 to 10485760 is rejected with a descriptive validation error. -/
def validateMinimumCompressionSize (mcs : Option Int) : Except CdkError Unit :=
  match mcs with
  | none => Except.ok ()
  | some n =>
    if n < 0 ∨ 10485760 < n then
      Except.error (CdkError.validationError
        ("minimumCompressionSize must be between 0 and 10485760 inclusive, got " ++ toString n))
    else
      Except.ok ()

/-- Construction including the spec-modelled property validation of the
generated resource class, which in the source runs where the resource is
created, before `configureDeployment`. -/
def RestApi.constructChecked (id : String) (props : RestApiProps) : Except CdkError RestApi :=
  match validateMinimumCompressionSize props.minimumCompressionSize with
  | Except.error e => Except.error e
  | Except.ok _ => RestApi.construct id props

/-- Executable embedding of the startsWith test of the source runtime: a
string starts with a pattern exactly when the characters of the pattern
are a prefix of its characters. -/
def strStartsWith (s pattern : String) : Bool :=
  List.isPrefixOf pattern.data s.data

/-- Embeds `RestApi.executeApiArn`. The three parameters are optional in
the source with defaults "*", "/*" and "*"; absence is embedded as none.
`cdk.Arn.fromComponents` is not among the provided sources and is modelled
as a deterministic concatenation of its components; the source error
message wraps the offending path in single quotes, elided here. -/
def RestApi.executeApiArn (api : RestApi) (method : Option String)
    (path : Option String) (stage : Option String) : Except CdkError String :=
  let method := method.getD "*"
  let path := path.getD "/*"
  let stage := stage.getD "*"
  if strStartsWith path "/" then
    Except.ok ("arn:aws:execute-api:::" ++ api.restApiId ++ "/" ++
      (stage ++ "/" ++ method ++ path))
  else
    Except.error (CdkError.validationError
      ("\"path\" must begin with a \"/\": " ++ path))

/-- Embeds `RestApi.validate`. The source diagnostic uses the contraction
of "does not"; spelled out here. A total function: it never throws. -/
def RestApi.validate (api : RestApi) : List String :=
  if api.methods.length = 0 then
    ["The REST API does not contain any methods"]
  else
    []

/-- Embeds `RestApi._attachMethod`, the registration hook invoked by
Method construction: it appends to the method inventory. -/
def RestApi._attachMethod (api : RestApi) (method : Method) : RestApi :=
  { api with methods := api.methods ++ [method] }

/-- Embeds `RestApi.onMethod`: creates a method on the root resource; the
Method constructor (not among the provided sources) calls `_attachMethod`
on its resource api. -/
def RestApi.onMethod (api : RestApi) (httpMethod : String) : RestApi × Method :=
  let m : Method := { httpMethod := httpMethod }
  (api._attachMethod m, m)

namespace Iam

/-- Embeds `PolicyStatement` as an opaque payload; the Group facade only
appends statements, never inspects them. -/
structure PolicyStatement where
  payload : String
deriving Repr, DecidableEq

/-- Embeds the `Policy` collaborator as the data the Group facade drives:
its construct id, the statements added to it in order, and the names of
the groups it has been attached to in order. Modelled from the spec: the
Policy class is not among the provided sources; attaching records the
group on the policy and adding a statement appends it. -/
structure Policy where
  constructId : String
  statements : List PolicyStatement := []
  attachedTo : List String := []
deriving Repr, DecidableEq

/-- Modelled from the spec: creates a fresh inline policy with the given
construct id. -/
def Policy.construct (constructId : String) : Policy :=
  { constructId := constructId }

/-- Modelled from the spec: records on the policy that the named group is
one of its attachment targets. -/
def Policy.attachToGroup (p : Policy) (groupName : String) : Policy :=
  { p with attachedTo := p.attachedTo ++ [groupName] }

/-- Modelled from the spec: appends a statement to the policy. -/
def Policy.addStatement (p : Policy) (s : PolicyStatement) : Policy :=
  { p with statements := p.statements ++ [s] }

/-- Embeds the `User` collaborator. Modelled from the spec: the User class
is not among the provided sources; it keeps its own membership
bookkeeping, and its join-group operation records the group name. -/
structure User where
  userName : String
  groups : List String := []
deriving Repr, DecidableEq

/-- Modelled from the spec: the join-group operation of a User appends the
group to the membership bookkeeping kept by the user. -/
def User.addToGroup (u : User) (groupName : String) : User :=
  { u with groups := u.groups ++ [groupName] }

/-- Embeds `GroupProps`, the constructor option bundle of the Group
facade. -/
structure GroupProps where
  groupName : Option String := none
  managedPolicyArns : Option (List String) := none
  path : Option String := none
deriving Repr, DecidableEq

/-- Embeds the `Group` construct state: runtime name and ARN obtained from
the generated resource, the mutable ordered managed-policy ARN list, the
attached-policies bookkeeping and the lazily created default inline
policy. -/
structure Group where
  name : String
  groupName : String
  groupArn : String
  managedPolicies : List String := []
  attachedPolicies : List String := []
  defaultPolicy : Option Policy := none
deriving Repr, DecidableEq

/-- Embeds the `Group` constructor. The generated
`cloudformation.GroupResource` is not among the provided sources; the
runtime name and ARN it returns are modelled as deterministic tokens
derived from the construct name. The initial managed-policy list is the
supplied one, or empty. -/
def Group.construct (name : String) (props : GroupProps) : Group :=
  { name := name
    groupName := "GroupName:" ++ name
    groupArn := "GroupArn:" ++ name
    managedPolicies := props.managedPolicyArns.getD [] }

/-- Modelled from the spec: `undefinedIfEmpty` of the util module is not
among the provided sources; the constructor passes the managed-policy list
through it as a deferred reference, and at read time an empty list
collapses to unset rather than an empty array. -/
def undefinedIfEmpty (l : List String) : Option (List String) :=
  if l = [] then none else some l

/-- The managedPolicyArns property of the underlying generated resource as
it resolves when read: a deferred reference over the current
managed-policy list of the group, not a snapshot taken at construction. -/
def Group.resourceManagedPolicyArns (g : Group) : Option (List String) :=
  undefinedIfEmpty g.managedPolicies

/-- Embeds `Group.attachManagedPolicy`: appends the ARN to the mutable
managed-policy list. -/
def Group.attachManagedPolicy (g : Group) (arn : String) : Group :=
  { g with managedPolicies := g.managedPolicies ++ [arn] }

/-- Embeds `Group.attachInlinePolicy`: records the attachment on the group
and informs the policy object that this group is an attachment target. -/
def Group.attachInlinePolicy (g : Group) (p : Policy) : Group × Policy :=
  ({ g with attachedPolicies := g.attachedPolicies ++ [p.constructId] },
   p.attachToGroup g.groupName)

/-- Embeds `Group.addUser`: delegates to the join-group operation of the
user; the group keeps no membership list of its own. -/
def Group.addUser (g : Group) (u : User) : Group × User :=
  (g, u.addToGroup g.groupName)

/-- Embeds `Group.addToPolicy`: on the first call it creates the default
inline policy under the construct id "DefaultPolicy" and attaches it to
the group, then (on every call) appends the statement to that policy. -/
def Group.addToPolicy (g : Group) (s : PolicyStatement) : Group :=
  let g :=
    match g.defaultPolicy with
    | none =>
      let p := (Policy.construct "DefaultPolicy").attachToGroup g.groupName
      { g with defaultPolicy := some p }
    | some _ => g
  match g.defaultPolicy with
  | some p => { g with defaultPolicy := some (p.addStatement s) }
  | none => g

end Iam

/-- A JavaScript boolean option that is not explicitly false defaults to
true. -/
theorem getD_true_of_ne_some_false (o : Option Bool) (h : o ≠ some false) :
    o.getD true = true := by
  cases o with
  | none => rfl
  | some b =>
    cases b with
    | false => exact absurd rfl h
    | true => rfl

/-- Folding `_attachMethod` over a list of methods appends them to the
inventory in call order. -/
theorem methods_foldl_attach (ms : List Method) (api : RestApi) :
    (ms.foldl RestApi._attachMethod api).methods = api.methods ++ ms := by
  induction ms generalizing api with
  | nil => simp
  | cons m rest ih =>
    simp [RestApi._attachMethod, ih]

/-- Folding `attachManagedPolicy` over a list of ARNs appends them to the
managed-policy list in call order. -/
theorem managed_foldl_attach (arns : List String) (g : Iam.Group) :
    (arns.foldl Iam.Group.attachManagedPolicy g).managedPolicies =
      g.managedPolicies ++ arns := by
  induction arns generalizing g with
  | nil => simp
  | cons a rest ih =>
    simp [Iam.Group.attachManagedPolicy, ih]

/-- Once the default policy exists, each further `addToPolicy` call only
appends its statement to that same policy. -/
theorem defaultPolicy_foldl_addToPolicy (ss : List Iam.PolicyStatement)
    (g : Iam.Group) (p : Iam.Policy) (hg : g.defaultPolicy = some p) :
    (ss.foldl Iam.Group.addToPolicy g).defaultPolicy =
      some { p with statements := p.statements ++ ss } := by
  induction ss generalizing g p with
  | nil => simpa using hg
  | cons s rest ih =>
    have hstep : (g.addToPolicy s).defaultPolicy = some (p.addStatement s) := by
      simp [Iam.Group.addToPolicy, hg]
    rw [List.foldl_cons, ih (g.addToPolicy s) (p.addStatement s) hstep]
    simp [Iam.Policy.addStatement]

/-- The first `addToPolicy` call on a group without a default policy
creates the policy, attaches it to the group once and records the
statement; the group keeps its name. -/
theorem addToPolicy_first (g : Iam.Group) (s : Iam.PolicyStatement)
    (hg : g.defaultPolicy = none) :
    (g.addToPolicy s).defaultPolicy =
        some { constructId := "DefaultPolicy", statements := [s],
               attachedTo := [g.groupName] } ∧
      (g.addToPolicy s).groupName = g.groupName := by
  constructor
  · simp [Iam.Group.addToPolicy, hg, Iam.Policy.construct, Iam.Policy.attachToGroup,
      Iam.Policy.addStatement]
  · simp [Iam.Group.addToPolicy, hg]

/-- Appending to equal prefixes is cancellative for strings. -/
theorem string_append_left_cancel (a b c : String) (h : a ++ b = a ++ c) :
    b = c := by
  apply String.ext
  have hd := congrArg String.data h
  simp only [String.data_append] at hd
  exact List.append_cancel_left hd

/-- Distinct suffixes stay distinct after appending a common prefix. -/
theorem string_append_ne_of_ne (a b c : String) (h : b ≠ c) :
    a ++ b ≠ a ++ c :=
  fun hc => h (string_append_left_cancel a b c hc)

/-- The deployment created by `RestApi.construct "Test" {}`. -/
def depTest : Deployment :=
  { description := "Automatically created by the RestApi construct" }

/-- The stage created by `RestApi.construct "Test" {}`. -/
def stageTest : Stage :=
  { constructId := "DeploymentStage.prod", stageName := "prod", deployment := depTest }

/-- The value produced by `RestApi.construct "Test" {}`. -/
def apiTest : RestApi :=
  { restApiId := "Ref:Test/Resource"
    resourceId := "RootResourceId:Test"
    latestDeployment := some depTest
    deploymentStage := some stageTest
    outputs := [("Endpoint", "https://execute-api/prod/")] }

/-- Default construction evaluates to the concrete value above. -/
theorem constructTest : RestApi.construct "Test" {} = Except.ok apiTest := rfl

/-- A RestApi value with no deployment stage set. -/
def apiBare : RestApi :=
  { restApiId := "Ref:Bare/Resource", resourceId := "RootResourceId:Bare" }

/-- C1: for every RestApi construction where the deploy option is omitted
or true, the constructed object has both latestDeployment and
deploymentStage set, and url (that is, urlForPath at its default path "/")
does not fail. -/
theorem claim1_deploy_sets_stage_and_url (id : String) (props : RestApiProps)
    (api : RestApi) (hdeploy : props.deploy ≠ some false)
    (hok : RestApi.construct id props = Except.ok api) :
    api.latestDeployment.isSome = true ∧ api.deploymentStage.isSome = true ∧
      (api.urlForPath "/").isOk = true ∧ api.url.isOk = true := by
  have hd : props.deploy.getD true = true := getD_true_of_ne_some_false _ hdeploy
  simp only [RestApi.construct, hd, if_true, urlForPathOf, Except.ok.injEq] at hok
  subst hok
  simp [RestApi.urlForPath, RestApi.url, urlForPathOf, Except.isOk, Except.toBool]

/-- C1 witness: default construction has deployment and stage set, and a
working url. -/
theorem claim1_witness :
    apiTest.latestDeployment.isSome = true ∧ apiTest.deploymentStage.isSome = true ∧
      (apiTest.urlForPath "/").isOk = true ∧ apiTest.url.isOk = true :=
  claim1_deploy_sets_stage_and_url "Test" {} apiTest (by decide) constructTest

/-- C2: construction with deploy false and deployOptions supplied fails
with the configuration-conflict error, and urlForPath fails with the state
error exactly when no deployment stage is set, returning normally
otherwise. -/
theorem claim2_conflict_and_state_error :
    (∀ (id : String) (props : RestApiProps),
        props.deploy = some false → props.deployOptions.isSome = true →
        RestApi.construct id props = Except.error (CdkError.configurationConflict
          "Cannot set deployOptions if deploy is disabled")) ∧
    (∀ (api : RestApi) (path : String),
        (api.deploymentStage = none →
          api.urlForPath path = Except.error (CdkError.stateError
            "Cannot determine deployment stage for API from \"deploymentStage\". Use \"deploy\" or explicitly set \"deploymentStage\"")) ∧
        (api.deploymentStage ≠ none → (api.urlForPath path).isOk = true)) := by
  constructor
  · intro id props h1 h2
    simp [RestApi.construct, h1, h2]
  · intro api path
    constructor
    · intro h
      simp [RestApi.urlForPath, urlForPathOf, h]
    · intro h
      cases hst : api.deploymentStage with
      | none => exact absurd hst h
      | some s => simp [RestApi.urlForPath, urlForPathOf, hst, Except.isOk, Except.toBool]

/-- C2 witness: a concrete conflicting bundle is rejected, and a concrete
stage-less api cannot produce a url. -/
theorem claim2_witness :
    RestApi.construct "T" { deploy := some false, deployOptions := some {} } =
        Except.error (CdkError.configurationConflict
          "Cannot set deployOptions if deploy is disabled") ∧
      apiBare.urlForPath "/" = Except.error (CdkError.stateError
        "Cannot determine deployment stage for API from \"deploymentStage\". Use \"deploy\" or explicitly set \"deploymentStage\"") :=
  ⟨claim2_conflict_and_state_error.1 "T"
      { deploy := some false, deployOptions := some {} } rfl rfl,
    (claim2_conflict_and_state_error.2 apiBare "/").1 rfl⟩

/-- C3: executeApiArn with all parameters omitted equals executeApiArn at
method "*", path "/*", stage "*"; and for every non-empty path that does
not start with "/", executeApiArn fails with the validation error, for any
choice of the other arguments. -/
theorem claim3_executeApiArn_defaults_and_validation :
    (∀ api : RestApi, api.executeApiArn none none none =
        api.executeApiArn (some "*") (some "/*") (some "*")) ∧
    (∀ (api : RestApi) (method stage : Option String) (p : String),
        p ≠ "" → strStartsWith p "/" = false →
        api.executeApiArn method (some p) stage =
          Except.error (CdkError.validationError
            ("\"path\" must begin with a \"/\": " ++ p))) := by
  constructor
  · intro api
    rfl
  · intro api method stage p hne hsw
    simp [RestApi.executeApiArn, hsw]

/-- C3 witness: the default call on a concrete api equals the explicit
call, and a concrete slash-less path is rejected. -/
theorem claim3_witness :
    apiTest.executeApiArn none none none =
        apiTest.executeApiArn (some "*") (some "/*") (some "*") ∧
      apiTest.executeApiArn none (some "pets") none =
        Except.error (CdkError.validationError
          ("\"path\" must begin with a \"/\": " ++ "pets")) :=
  ⟨claim3_executeApiArn_defaults_and_validation.1 apiTest,
    claim3_executeApiArn_defaults_and_validation.2 apiTest none none "pets"
      (by decide) (by decide)⟩

/-- A sample method for witnesses. -/
def methodGet : Method := { httpMethod := "GET" }

/-- C4: validate returns exactly one diagnostic when zero methods were
ever registered through the registration hook, and the empty list once at
least one method has been registered; validate is a total function of the
state, so it never raises. -/
theorem claim4_validate_diagnostics (api : RestApi) (hm : api.methods = [])
    (ms : List Method) :
    (ms = [] → RestApi.validate (ms.foldl RestApi._attachMethod api) =
        ["The REST API does not contain any methods"]) ∧
      (ms ≠ [] → RestApi.validate (ms.foldl RestApi._attachMethod api) = []) := by
  have hmeth := methods_foldl_attach ms api
  rw [hm] at hmeth
  constructor
  · intro h
    subst h
    simp [RestApi.validate, hm]
  · intro h
    have hlen : (ms.foldl RestApi._attachMethod api).methods.length ≠ 0 := by
      rw [hmeth]
      simpa using h
    simp [RestApi.validate, hlen]

/-- C4 witness: the freshly constructed api yields the single diagnostic,
and registering one method empties the diagnostic list. -/
theorem claim4_witness :
    RestApi.validate (([] : List Method).foldl RestApi._attachMethod apiTest) =
        ["The REST API does not contain any methods"] ∧
      RestApi.validate ([methodGet].foldl RestApi._attachMethod apiTest) = [] :=
  ⟨(claim4_validate_diagnostics apiTest rfl []).1 rfl,
    (claim4_validate_diagnostics apiTest rfl [methodGet]).2 (by decide)⟩

/-- C5: any nonempty sequence of addToPolicy calls on a group without a
default policy creates the default inline policy exactly once, attaches it
to the group exactly once, and appends every statement to that same single
policy in call order. -/
theorem claim5_single_default_policy (g : Iam.Group)
    (hg : g.defaultPolicy = none) (ss : List Iam.PolicyStatement)
    (hss : ss ≠ []) :
    ((ss.foldl Iam.Group.addToPolicy g).defaultPolicy.map Iam.Policy.constructId =
        some "DefaultPolicy") ∧
      ((ss.foldl Iam.Group.addToPolicy g).defaultPolicy.map Iam.Policy.attachedTo =
        some [g.groupName]) ∧
      ((ss.foldl Iam.Group.addToPolicy g).defaultPolicy.map Iam.Policy.statements =
        some ss) := by
  cases ss with
  | nil => exact absurd rfl hss
  | cons s rest =>
    obtain ⟨h1, _⟩ := addToPolicy_first g s hg
    rw [List.foldl_cons,
      defaultPolicy_foldl_addToPolicy rest (g.addToPolicy s) _ h1]
    simp

/-- Sample statements and a sample group for witnesses. -/
def stmtA : Iam.PolicyStatement := { payload := "allow-read" }

/-- A second sample statement. -/
def stmtB : Iam.PolicyStatement := { payload := "allow-write" }

/-- A sample group constructed with no options. -/
def groupG : Iam.Group := Iam.Group.construct "G" {}

/-- C5 witness: two addToPolicy calls on a fresh group yield one policy,
attached once, holding the two statements. -/
theorem claim5_witness :
    (([stmtA, stmtB].foldl Iam.Group.addToPolicy groupG).defaultPolicy.map
        Iam.Policy.constructId = some "DefaultPolicy") ∧
      (([stmtA, stmtB].foldl Iam.Group.addToPolicy groupG).defaultPolicy.map
        Iam.Policy.attachedTo = some ["GroupName:G"]) ∧
      (([stmtA, stmtB].foldl Iam.Group.addToPolicy groupG).defaultPolicy.map
        Iam.Policy.statements = some [stmtA, stmtB]) :=
  claim5_single_default_policy groupG rfl [stmtA, stmtB] (by decide)

/-- C6: attachManagedPolicy appends one entry per call in call order, with
no de-duplication and no upper bound; from a group constructed without
managed policies, N calls yield a list of length exactly N. -/
theorem claim6_attachManagedPolicy_appends :
    (∀ (g : Iam.Group) (arns : List String),
        (arns.foldl Iam.Group.attachManagedPolicy g).managedPolicies =
          g.managedPolicies ++ arns) ∧
      (∀ (name : String) (props : Iam.GroupProps) (arns : List String),
        props.managedPolicyArns = none →
        (arns.foldl Iam.Group.attachManagedPolicy
            (Iam.Group.construct name props)).managedPolicies = arns ∧
          (arns.foldl Iam.Group.attachManagedPolicy
            (Iam.Group.construct name props)).managedPolicies.length =
              arns.length) := by
  constructor
  · intro g arns
    exact managed_foldl_attach arns g
  · intro name props arns h
    have hmp : (Iam.Group.construct name props).managedPolicies = [] := by
      simp [Iam.Group.construct, h]
    constructor
    · rw [managed_foldl_attach, hmp]
      simp
    · rw [managed_foldl_attach, hmp]
      simp

/-- C6 witness: three calls with the same ARN on a fresh group yield a
list of length three. -/
theorem claim6_witness :
    (["a"].foldl Iam.Group.attachManagedPolicy groupG).managedPolicies =
        groupG.managedPolicies ++ ["a"] ∧
      (["arn:p", "arn:p", "arn:p"].foldl Iam.Group.attachManagedPolicy
          (Iam.Group.construct "H" {})).managedPolicies.length = 3 :=
  ⟨claim6_attachManagedPolicy_appends.1 groupG ["a"],
    (claim6_attachManagedPolicy_appends.2 "H" {} ["arn:p", "arn:p", "arn:p"]
      rfl).2⟩

/-- C7: a minimumCompressionSize outside the inclusive integer range 0 to
10485760 makes checked construction fail synchronously with a descriptive
validation error and no partially constructed object, while an in-range
value passes the check, leaving construction to proceed exactly as
without it. The range check itself is modelled from the spec, since the
generated resource class is not among the provided sources. -/
theorem claim7_minimumCompressionSize_range :
    (∀ (id : String) (props : RestApiProps) (n : Int),
        props.minimumCompressionSize = some n → (n < 0 ∨ 10485760 < n) →
        RestApi.constructChecked id props = Except.error (CdkError.validationError
          ("minimumCompressionSize must be between 0 and 10485760 inclusive, got " ++
            toString n))) ∧
      (∀ (id : String) (props : RestApiProps) (n : Int),
        props.minimumCompressionSize = some n → 0 ≤ n → n ≤ 10485760 →
        RestApi.constructChecked id props = RestApi.construct id props) := by
  constructor
  · intro id props n h hout
    simp [RestApi.constructChecked, validateMinimumCompressionSize, h, hout]
  · intro id props n h h0 h1
    have hnot : ¬(n < 0 ∨ 10485760 < n) := by
      push_neg
      exact ⟨h0, h1⟩
    simp [RestApi.constructChecked, validateMinimumCompressionSize, h, hnot]

/-- C7 witness: minus one is rejected with the validation error and zero
is accepted. -/
theorem claim7_witness :
    RestApi.constructChecked "T" { minimumCompressionSize := some (-1) } =
        Except.error (CdkError.validationError
          ("minimumCompressionSize must be between 0 and 10485760 inclusive, got " ++
            toString (-1 : Int))) ∧
      RestApi.constructChecked "T2" { minimumCompressionSize := some 0 } =
        RestApi.construct "T2" { minimumCompressionSize := some 0 } :=
  ⟨claim7_minimumCompressionSize_range.1 "T"
      { minimumCompressionSize := some (-1) } (-1) rfl (by decide),
    claim7_minimumCompressionSize_range.2 "T2"
      { minimumCompressionSize := some 0 } 0 rfl (by decide) (by decide)⟩

/-- A configuration whose deployOptions are present with no stage name. -/
def propsStageAbsent : RestApiProps :=
  { deployOptions := some { stageName := none } }

/-- A configuration whose deployOptions name the stage "prod"
explicitly. -/
def propsStageProd : RestApiProps :=
  { deployOptions := some { stageName := some "prod" } }

/-- The construct identifier of the auto-created stage of a construction
result, when there is one. -/
def stageIdOf (r : Except CdkError RestApi) : Option String :=
  match r with
  | Except.ok api => api.deploymentStage.map Stage.constructId
  | Except.error _ => none

/-- C8 counterexample: two configurations that differ only in the stage
name option (absent versus the explicit "prod") produce the same stage
construct identifier, so stage identifiers do not differ for every two
configurations differing only in stage name. -/
theorem claim8_counterexample :
    propsStageAbsent = { propsStageProd with deployOptions := some { stageName := none } } ∧
      propsStageAbsent ≠ propsStageProd ∧
      stageIdOf (RestApi.construct "Api" propsStageAbsent) =
        stageIdOf (RestApi.construct "Api" propsStageProd) ∧
      stageIdOf (RestApi.construct "Api" propsStageAbsent) =
        some "DeploymentStage.prod" :=
  ⟨rfl, by decide, by decide, by decide⟩

/-- C8 (amended): when deploy is enabled the auto-created stage is named
by the computed stage name (the deployOptions stage name when present and
non-empty, "prod" otherwise), the stage construct identifier is
"DeploymentStage." followed by that computed name, and two configurations
whose computed stage names differ get different stage identifiers. -/
theorem claim8_stage_name_and_identifier :
    (∀ (id : String) (props : RestApiProps) (api : RestApi),
        props.deploy ≠ some false → RestApi.construct id props = Except.ok api →
        api.deploymentStage.map Stage.stageName = some (deploymentStageName props) ∧
          api.deploymentStage.map Stage.constructId =
            some ("DeploymentStage." ++ deploymentStageName props)) ∧
      (∀ p q : RestApiProps, deploymentStageName p ≠ deploymentStageName q →
        ("DeploymentStage." ++ deploymentStageName p) ≠
          ("DeploymentStage." ++ deploymentStageName q)) := by
  constructor
  · intro id props api hdeploy hok
    have hd : props.deploy.getD true = true := getD_true_of_ne_some_false _ hdeploy
    simp only [RestApi.construct, hd, if_true, urlForPathOf, Except.ok.injEq] at hok
    subst hok
    simp [Stage.construct, deploymentStageName]
  · intro p q h
    exact string_append_ne_of_ne _ _ _ h

/-- C8 witness: the default construction carries the computed name "prod"
in its stage identifier, and a configuration with computed name "beta"
gets a different identifier. -/
theorem claim8_witness :
    (apiTest.deploymentStage.map Stage.stageName = some (deploymentStageName {}) ∧
        apiTest.deploymentStage.map Stage.constructId =
          some ("DeploymentStage." ++ deploymentStageName {})) ∧
      ("DeploymentStage." ++ deploymentStageName {}) ≠
        ("DeploymentStage." ++
          deploymentStageName { deployOptions := some { stageName := some "beta" } }) :=
  ⟨claim8_stage_name_and_identifier.1 "Test" {} apiTest (by decide) constructTest,
    claim8_stage_name_and_identifier.2 {}
      { deployOptions := some { stageName := some "beta" } } (by decide)⟩

/-- C9: addUser only invokes the join-group operation of the user, whose
membership bookkeeping gains this group, and leaves every field of the
group itself unchanged. -/
theorem claim9_addUser_frame (g : Iam.Group) (u : Iam.User) :
    (g.addUser u).1 = g ∧
      (g.addUser u).2 = u.addToGroup g.groupName ∧
      (g.addUser u).2 = { u with groups := u.groups ++ [g.groupName] } :=
  ⟨rfl, rfl, rfl⟩

/-- C10: the managed-policy list reaches the underlying resource as a
deferred reference: ARNs attached after construction appear when the
property is read, and an empty list resolves to unset rather than an
empty array. The collapse of the empty list is modelled from the spec,
since the util helper is not among the provided sources. -/
theorem claim10_deferred_managed_list :
    ∀ (name : String) (props : Iam.GroupProps) (arns : List String),
      (arns.foldl Iam.Group.attachManagedPolicy
          (Iam.Group.construct name props)).resourceManagedPolicyArns =
        (if props.managedPolicyArns.getD [] ++ arns = [] then none
         else some (props.managedPolicyArns.getD [] ++ arns)) := by
  intro name props arns
  have hmp : (Iam.Group.construct name props).managedPolicies =
      props.managedPolicyArns.getD [] := rfl
  simp [Iam.Group.resourceManagedPolicyArns, Iam.undefinedIfEmpty,
    managed_foldl_attach, hmp]
